import Mathlib

/-!
A shallow embedding of the evaluation core of the fend calculator
(src/core/src/ast.rs) together with the CLI configuration-path logic
(src/cli/src/file_paths.rs).

Modelling choices:

* The arbitrary-precision, unit-aware Number type of crate::num is external to
  the evaluation core (its file is not part of the sources here), so it is
  embedded as a free term algebra: each external primitive (negate, add, sub,
  mul, div, pow, factorial, convert_to, with_format, with_base, function
  application) is a constructor.  This makes "which primitive was invoked"
  part of the result value, so dispatch claims are directly statable.
* The interrupt capability is a Bool: true means "cancellation has been
  requested".  test_int (crate::interrupt, not in the sources) errors with the
  interrupt outcome exactly when the flag is set.
* IntErr<String, I> becomes the two-variant EvalError (domain message or
  interrupt).
* The Rust evaluator threads &mut Scope through every frame; here the scope is
  the scope component of an explicit state, so "the scope is unchanged" is a
  provable statement rather than an artifact of the encoding.
* The state additionally records a trace of externally observable effects
  (cancellation polls, identifier resolutions, scope lookups, primitive
  invocations).  The trace is instrumentation for stating evaluation-order and
  non-occurrence properties; it never influences results.
-/

namespace Fend

/-- Output styles named by the resolver table (ast.rs lines 179-182) and the
precision-marker conversion (ast.rs line 114); the type itself lives in the
external crate::num. -/
inductive FormattingStyle where
  | Auto
  | ExactFloatWithFractionFallback
  | ExactFraction
  | ExactFloat
  | ApproxFloat (digits : Nat)
deriving DecidableEq, Repr

/-- A numeric base marker; the type lives in the external crate::num. -/
structure Base where
  value : Nat
deriving DecidableEq, Repr

/-- Modelled from the spec: Base::from_plain_base (crate::num, not under src)
is the external "base-from-plain-integer" primitive whose failure (invalid
base) becomes a resolver error.  Bases outside 2..=36 are invalid. -/
def Base.from_plain_base (n : Nat) : Except String Base :=
  if 2 ≤ n ∧ n ≤ 36 then .ok ⟨n⟩ else .error "invalid base"

/-- The external arbitrary-precision number type (crate::num, not under src),
embedded as a free term algebra over the primitives the evaluator invokes.
The evaluation core never inspects numbers, so the symbolic form records
exactly which primitive was applied to which operands. -/
inductive Number where
  | lit (s : String)
  | ofInt (n : Int)
  | i
  | neg (x : Number)
  | add (x y : Number)
  | sub (x y : Number)
  | mul (x y : Number)
  | div (x y : Number)
  | pow (x y : Number)
  | factorial (x : Number)
  | convert_to (x y : Number)
  | with_format (x : Number) (fmt : FormattingStyle)
  | with_base (x : Number) (b : Base)
  | applyFn (f : String) (x : Number)
deriving DecidableEq, Repr

/-- Whether the symbolic number is a literal zero (the divisor shape on which
the modelled division primitive fails). -/
def Number.is_zero : Number → Bool
  | .lit "0" => true
  | .ofInt 0 => true
  | _ => false

/-- Modelled from the spec: Number::div (crate::num, not under src) is
fallible — division by zero is a domain error.  In the symbolic model only a
literal-zero divisor is detected. -/
def Number.div_result (a b : Number) : Except String Number :=
  if b.is_zero then .error "division by zero" else .ok (.div a b)

/-- The result-value model of Value (crate::value, not under src): the closed
set of result kinds visible in ast.rs — numeric value, builtin function
reference, formatting directive, precision marker "dp", base marker. -/
inductive Value where
  | num (n : Number)
  | func (name : String)
  | format (fmt : FormattingStyle)
  | dp
  | base (b : Base)
deriving DecidableEq, Repr

/-- The lexical environment: identifier names mapped to previously bound
values (crate::scope, not under src). -/
abbrev Scope := List (String × Value)

/-- Externally observable effects of the evaluator, recorded as
instrumentation: a cancellation poll, an identifier resolution, a read-only
scope lookup, and an external Number-primitive invocation. -/
inductive Event where
  | cancelCheck
  | resolveIdent (name : String)
  | scopeLookup (name : String)
  | primCall (name : String)
deriving DecidableEq, Repr

/-- The state threaded through evaluation: the scope (&mut Scope in the Rust
signature) and the instrumentation trace. -/
structure EvalState where
  scope : Scope
  events : List Event
deriving DecidableEq, Repr

/-- Append one observable event to the trace. -/
def pushEvent (st : EvalState) (e : Event) : EvalState :=
  { st with events := st.events ++ [e] }

/-- The IntErr<String, I> outcome kinds: a domain error carrying a message, or
the interrupt outcome (cancellation requested). -/
inductive EvalError where
  | msg (s : String)
  | interrupt
deriving DecidableEq, Repr

/-- The evaluation monad: state (scope + trace) with short-circuiting
domain-error/interrupt outcomes.  The state survives an error, so the trace
up to the failure point remains observable. -/
abbrev EvalM (α : Type) : Type := EvalState → Except EvalError α × EvalState

def EvalM.pure {α : Type} (a : α) : EvalM α := fun s => (.ok a, s)

def EvalM.bind {α β : Type} (x : EvalM α) (f : α → EvalM β) : EvalM β := fun s =>
  match x s with
  | (.ok a, s') => f a s'
  | (.error e, s') => (.error e, s')

instance : Monad EvalM where
  pure := EvalM.pure
  bind := EvalM.bind

def EvalM.throw {α : Type} (e : EvalError) : EvalM α := fun s => (.error e, s)

/-- Record an observable event. -/
def logEvent (e : Event) : EvalM Unit := fun s => (.ok (), pushEvent s e)

/-- Modelled from the spec: test_int (crate::interrupt, not under src) is the
polled cancellation check run before each node is processed; it yields the
interrupt outcome exactly when cancellation has been requested. -/
def test_int (int : Bool) : EvalM Unit := fun s =>
  ((if int then .error .interrupt else .ok ()), pushEvent s .cancelCheck)

/-- Lift a fallible external primitive result, turning its error into a domain
error (the map_err(|e| e.to_string()) pattern of ast.rs). -/
def liftExcept {α : Type} : Except String α → EvalM α
  | .ok a => EvalM.pure a
  | .error e => EvalM.throw (.msg e)

/-- Modelled from the spec: Value::expect_num (crate::value, not under src),
the centralized "require Numeric" accessor; any non-Numeric variant is a
type-mismatch error. -/
def Value.expect_num : Value → EvalM Number
  | .num n => EvalM.pure n
  | _ => EvalM.throw (.msg "expected a number")

/-- Association-list lookup in the scope. -/
def lookupScope : Scope → String → Option Value
  | [], _ => none
  | (k, v) :: rest, ident => if k = ident then some v else lookupScope rest ident

/-- Modelled from the spec: Scope::get (crate::scope, not under src): a
read-only lookup; a miss is a hard "unknown identifier" error. -/
def scope_get (ident : String) : EvalM Value := fun st =>
  (match lookupScope st.scope ident with
   | some v => .ok v
   | none => .error (.msg ("unknown identifier " ++ ident)),
   pushEvent st (.scopeLookup ident))

/-- Invoke an infallible external Number primitive: record the invocation and
return the symbolic result. -/
def prim_total (name : String) (r : Number) : EvalM Number := fun s =>
  (.ok r, pushEvent s (.primCall name))

/-- Invoke the fallible external division primitive; its failure is a domain
error, never an interrupt (the map_err(IntErr::into_string) pattern at ast.rs
lines 74 and 97). -/
def prim_div (a b : Number) : EvalM Number := fun s =>
  (match Number.div_result a b with
   | .ok r => .ok r
   | .error e => .error (.msg e),
   pushEvent s (.primCall "div"))

/-- Apply a builtin function reference to a numeric argument: record the
invocation and return the symbolic application. -/
def apply_fn (f : String) (x : Number) : EvalM Value := fun s =>
  (.ok (.num (.applyFn f x)), pushEvent s (.primCall "apply"))

/-- Modelled from the spec: Value::apply (crate::value, not under src).  The
three juxtaposition nodes call it with flags (allow_mul, force_mul):
Apply (true, false), ApplyMul (true, true), ApplyFunctionCall (false, false).
Forced multiplication requires both sides Numeric (a Function reference on
the left is a type-mismatch error); otherwise a Function-reference left is a
function call, a non-function left multiplies when allowed and is a hard
"expected a function" error under an explicit call. -/
def Value.apply (self arg : Value) (allow_mul force_mul : Bool) : EvalM Value :=
  if force_mul then do
    let a ← self.expect_num
    let b ← arg.expect_num
    let r ← prim_total "mul" (.mul a b)
    pure (.num r)
  else
    match self with
    | .func f => do
        let b ← arg.expect_num
        apply_fn f b
    | _ =>
        if allow_mul then do
          let a ← self.expect_num
          let b ← arg.expect_num
          let r ← prim_total "mul" (.mul a b)
          pure (.num r)
        else EvalM.throw (.msg "expected a function")

/-- The parse options passed through the tree walk (crate::parser, not under
src); ast.rs reads the single compatibility-mode flag. -/
structure ParseOptions where
  gnu_compatible : Bool
deriving DecidableEq, Repr

/-- Modelled from the spec: the eval helper of ast.rs lines 124-131 forwards
to crate::eval::evaluate_to_value (not under src), which parses fixed literal
text and recursively invokes the evaluator; errors are impossible there (the
Rust error type is Never) and interrupts are forwarded.  The constants pi and
e use input of the shape "approx. DIGITS", which parses to
Apply(Ident "approx.", Num(DIGITS)): its evaluation polls cancellation at the
Apply, Ident and Num nodes, resolves "approx." to the Function reference
"approximately" and applies it to the literal. -/
def eval_const (digits : String) (int : Bool) : EvalM Value := do
  test_int int
  test_int int
  logEvent (.resolveIdent "approx.")
  let f : Value := .func "approximately"
  test_int int
  f.apply (.num (.lit digits)) true false

/-- The identifier resolver of ast.rs lines 133-191: a mode-dependent static
table of builtins falling back to the scope. -/
def resolve_identifier (ident : String) (options : ParseOptions) (int : Bool) :
    EvalM Value := do
  logEvent (.resolveIdent ident)
  if options.gnu_compatible then
    match ident with
    | "exp" => pure (.func "exp")
    | "sqrt" => pure (.func "sqrt")
    | "ln" => pure (.func "ln")
    | "log2" => pure (.func "log2")
    | "log10" => pure (.func "log10")
    | "tan" => pure (.func "tan")
    | "asin" => pure (.func "asin")
    | "approx." | "approximately" => pure (.func "approximately")
    | _ => scope_get ident
  else
    match ident with
    | "pi" => eval_const "3.141592653589793238" int
    | "e" => eval_const "2.718281828459045235" int
    | "i" => pure (.num .i)
    | "sqrt" => pure (.func "sqrt")
    | "cbrt" => pure (.func "cbrt")
    | "abs" => pure (.func "abs")
    | "sin" => pure (.func "sin")
    | "cos" => pure (.func "cos")
    | "tan" => pure (.func "tan")
    | "asin" => pure (.func "asin")
    | "acos" => pure (.func "acos")
    | "atan" => pure (.func "atan")
    | "sinh" => pure (.func "sinh")
    | "cosh" => pure (.func "cosh")
    | "tanh" => pure (.func "tanh")
    | "asinh" => pure (.func "asinh")
    | "acosh" => pure (.func "acosh")
    | "atanh" => pure (.func "atanh")
    | "ln" => pure (.func "ln")
    | "log2" => pure (.func "log2")
    | "log10" => pure (.func "log10")
    | "exp" => pure (.func "exp")
    | "approx." | "approximately" => pure (.func "approximately")
    | "auto" => pure (.format .Auto)
    | "exact" => pure (.format .ExactFloatWithFractionFallback)
    | "fraction" => pure (.format .ExactFraction)
    | "float" => pure (.format .ExactFloat)
    | "dp" => pure .dp
    | "base" => pure (.func "base")
    | "decimal" => do pure (.base (← liftExcept (Base.from_plain_base 10)))
    | "hex" | "hexadecimal" => do pure (.base (← liftExcept (Base.from_plain_base 16)))
    | "binary" => do pure (.base (← liftExcept (Base.from_plain_base 2)))
    | "octal" => do pure (.base (← liftExcept (Base.from_plain_base 8)))
    | _ => scope_get ident

/-- The expression tree of ast.rs lines 10-31. -/
inductive Expr where
  | Num (n : Number)
  | Ident (s : String)
  | Parens (x : Expr)
  | UnaryMinus (x : Expr)
  | UnaryPlus (x : Expr)
  | UnaryDiv (x : Expr)
  | Factorial (x : Expr)
  | Add (a b : Expr)
  | Sub (a b : Expr)
  | Mul (a b : Expr)
  | Div (a b : Expr)
  | Pow (a b : Expr)
  | Apply (a b : Expr)
  | ApplyFunctionCall (a b : Expr)
  | ApplyMul (a b : Expr)
  | As (a b : Expr)
deriving DecidableEq, Repr

/-- The recursive tree-walking evaluator of ast.rs lines 57-122.  The &mut
Scope argument of the Rust signature is the scope component of the threaded
state. -/
def evaluate (expr : Expr) (options : ParseOptions) (int : Bool) : EvalM Value := do
  test_int int
  match expr with
  | .Num n => pure (.num n)
  | .Ident ident => resolve_identifier ident options int
  | .Parens x => evaluate x options int
  | .UnaryMinus x => do
      let n ← (← evaluate x options int).expect_num
      let r ← prim_total "neg" (.neg n)
      pure (.num r)
  | .UnaryPlus x => do
      let n ← (← evaluate x options int).expect_num
      pure (.num n)
  | .UnaryDiv x => do
      let n ← (← evaluate x options int).expect_num
      let r ← prim_div (.ofInt 1) n
      pure (.num r)
  | .Factorial x => do
      let n ← (← evaluate x options int).expect_num
      let r ← prim_total "factorial" (.factorial n)
      pure (.num r)
  | .Add a b => do
      let x ← (← evaluate a options int).expect_num
      let y ← (← evaluate b options int).expect_num
      let r ← prim_total "add" (.add x y)
      pure (.num r)
  | .Sub a b => do
      let x ← (← evaluate a options int).expect_num
      let y ← (← evaluate b options int).expect_num
      let r ← prim_total "sub" (.sub x y)
      pure (.num r)
  | .Mul a b => do
      let x ← (← evaluate a options int).expect_num
      let y ← (← evaluate b options int).expect_num
      let r ← prim_total "mul" (.mul x y)
      pure (.num r)
  | .Div a b => do
      let x ← (← evaluate a options int).expect_num
      let y ← (← evaluate b options int).expect_num
      let r ← prim_div x y
      pure (.num r)
  | .Pow a b => do
      let x ← (← evaluate a options int).expect_num
      let y ← (← evaluate b options int).expect_num
      let r ← prim_total "pow" (.pow x y)
      pure (.num r)
  | .Apply a b => do
      let l ← evaluate a options int
      let r ← evaluate b options int
      l.apply r true false
  | .ApplyFunctionCall a b => do
      let l ← evaluate a options int
      let r ← evaluate b options int
      l.apply r false false
  | .ApplyMul a b => do
      let l ← evaluate a options int
      let r ← evaluate b options int
      l.apply r true true
  | .As a b => do
      match (← evaluate b options int) with
      | .num bn => do
          let an ← (← evaluate a options int).expect_num
          let r ← prim_total "convert_to" (.convert_to an bn)
          pure (.num r)
      | .format fmt => do
          let an ← (← evaluate a options int).expect_num
          let r ← prim_total "with_format" (.with_format an fmt)
          pure (.num r)
      | .dp => do
          let an ← (← evaluate a options int).expect_num
          let r ← prim_total "with_format" (.with_format an (.ApproxFloat 10))
          pure (.num r)
      | .base bb => do
          let an ← (← evaluate a options int).expect_num
          let r ← prim_total "with_base" (.with_base an bb)
          pure (.num r)
      | .func _ => EvalM.throw (.msg "Unable to convert value to a function")

/-- Run an evaluation from a given scope with an empty trace. -/
def runEval (e : Expr) (opts : ParseOptions) (int : Bool) (sc : Scope) :
    Except EvalError Value × EvalState :=
  evaluate e opts int ⟨sc, []⟩

/-- A filesystem path viewed as its sequence of pushed components:
std::path::PathBuf::from(s) is the one-component path and push appends one
component (only relative literal components are pushed in file_paths.rs). -/
abbrev Path := List String

/-- The unable-to-find-home-directory error of file_paths.rs lines 3-4. -/
inductive HomeDirError where
  | homeDirError
deriving DecidableEq, Repr

/-- The environment visible to the configuration-path logic: the two
environment variables it reads with env::var_os, and the result of the
external home::home_dir() of the home crate (the user's home directory, when
one can be determined). -/
structure Env where
  fend_config_dir : Option String
  xdg_config_home : Option String
  home_dir : Option String
deriving DecidableEq, Repr

/-- PathBuf::push with a relative component. -/
def path_push (p : Path) (c : String) : Path := p ++ [c]

/-- file_paths.rs lines 20-26: home::home_dir(), with None becoming
HomeDirError. -/
def get_home_dir (env : Env) : Except HomeDirError Path :=
  match env.home_dir with
  | some h => .ok [h]
  | none => .error .homeDirError

/-- file_paths.rs lines 28-46: FEND_CONFIG_DIR, else XDG_CONFIG_HOME with
"fend" pushed, else the home directory with ".config" and "fend" pushed. -/
def get_config_dir (env : Env) : Except HomeDirError Path :=
  match env.fend_config_dir with
  | some d => .ok [d]
  | none =>
    match env.xdg_config_home with
    | some x => .ok (path_push [x] "fend")
    | none =>
      match get_home_dir env with
      | .ok res => .ok (path_push (path_push res ".config") "fend")
      | .error e => .error e

/-- file_paths.rs lines 48-52: the config directory with "config.toml"
pushed. -/
def get_config_file_location (env : Env) : Except HomeDirError Path :=
  match get_config_dir env with
  | .ok p => .ok (path_push p "config.toml")
  | .error e => .error e

end Fend

namespace Fend

/-! Decidable equality of outcomes, and pointwise run lemmas for the monad
operations, used throughout the development. -/

instance instDecEqExcept {e a : Type} [DecidableEq e] [DecidableEq a] :
    DecidableEq (Except e a)
  | .error x, .error y =>
      if h : x = y then isTrue (by rw [h])
      else isFalse (fun hh => h (Except.error.inj hh))
  | .error _, .ok _ => isFalse (fun hh => Except.noConfusion hh)
  | .ok _, .error _ => isFalse (fun hh => Except.noConfusion hh)
  | .ok x, .ok y =>
      if h : x = y then isTrue (by rw [h])
      else isFalse (fun hh => h (Except.ok.inj hh))

@[simp] theorem run_bind {α β : Type} (x : EvalM α) (f : α → EvalM β) (s : EvalState) :
    (x >>= f) s = match x s with
      | (.ok a, s') => f a s'
      | (.error e, s') => (.error e, s') := rfl

@[simp] theorem run_pure {α : Type} (a : α) (s : EvalState) :
    (pure a : EvalM α) s = (.ok a, s) := rfl

@[simp] theorem run_EvalM_pure {α : Type} (a : α) (s : EvalState) :
    EvalM.pure a s = (Except.ok a, s) := rfl

@[simp] theorem run_throw {α : Type} (e : EvalError) (s : EvalState) :
    (EvalM.throw e : EvalM α) s = (.error e, s) := rfl

@[simp] theorem run_test_int_false (s : EvalState) :
    test_int false s = (.ok (), pushEvent s .cancelCheck) := rfl

@[simp] theorem run_test_int_true (s : EvalState) :
    test_int true s = (.error .interrupt, pushEvent s .cancelCheck) := rfl

@[simp] theorem run_logEvent (e : Event) (s : EvalState) :
    logEvent e s = (.ok (), pushEvent s e) := rfl

/-- The bootstrap evaluation of a constant never touches the scope. -/
theorem eval_const_scope (d : String) (int : Bool) (st : EvalState) :
    ((eval_const d int) st).2.scope = st.scope := by cases int <;> rfl

/-- Claim C1: evaluating As(a,b) first evaluates the right child b (a failure
of b is the failure of the whole node, with the left child never started), and
the conversion behaviour is chosen solely by the kind of b's value: a Numeric
right invokes the convert-to primitive on the left's numeric value (the
symbolic result Number.convert_to — never the with-base path), a Format
directive right invokes the apply-format primitive, the Precision marker right
invokes apply-format with the fixed ApproxFloat style at exactly 10
significant digits, a Base marker right invokes the apply-base primitive
(never the unit-conversion path), and a Function-reference right is the hard
error "Unable to convert value to a function". -/
theorem as_conversion_dispatch (a b : Expr) (opts : ParseOptions) (st : EvalState) :
    (∀ e st1, evaluate b opts false (pushEvent st .cancelCheck) = (.error e, st1) →
      evaluate (.As a b) opts false st = (.error e, st1))
    ∧ (∀ vb st1, evaluate b opts false (pushEvent st .cancelCheck) = (.ok vb, st1) →
        ((∀ f, vb = .func f →
          evaluate (.As a b) opts false st =
            (.error (.msg "Unable to convert value to a function"), st1))
        ∧ (∀ va st2 an, evaluate a opts false st1 = (.ok va, st2) → va = .num an →
            ((∀ nb, vb = .num nb →
              evaluate (.As a b) opts false st =
                (.ok (.num (.convert_to an nb)), pushEvent st2 (.primCall "convert_to")))
            ∧ (∀ fmt, vb = .format fmt →
              evaluate (.As a b) opts false st =
                (.ok (.num (.with_format an fmt)), pushEvent st2 (.primCall "with_format")))
            ∧ (vb = .dp →
              evaluate (.As a b) opts false st =
                (.ok (.num (.with_format an (.ApproxFloat 10))),
                 pushEvent st2 (.primCall "with_format")))
            ∧ (∀ bb, vb = .base bb →
              evaluate (.As a b) opts false st =
                (.ok (.num (.with_base an bb)), pushEvent st2 (.primCall "with_base"))))))) := by
  constructor
  · intro e st1 hb
    simp [evaluate, hb]
  · intro vb st1 hb
    constructor
    · rintro f rfl
      simp [evaluate, hb]
    · rintro va st2 an ha rfl
      refine ⟨?_, ?_, ?_, ?_⟩
      · rintro nb rfl
        simp [evaluate, hb, ha, Value.expect_num, prim_total]
      · rintro fmt rfl
        simp [evaluate, hb, ha, Value.expect_num, prim_total]
      · rintro rfl
        simp [evaluate, hb, ha, Value.expect_num, prim_total]
      · rintro bb rfl
        simp [evaluate, hb, ha, Value.expect_num, prim_total]

/-- Witness for C1: converting the literal 5 to the numeric target 2 invokes
the convert-to primitive after evaluating right then left. -/
theorem as_conversion_dispatch_witness :
    evaluate (.As (.Num (.lit "5")) (.Num (.lit "2"))) ⟨false⟩ false ⟨[], []⟩ =
      (.ok (.num (.convert_to (.lit "5") (.lit "2"))),
       ⟨[], [.cancelCheck, .cancelCheck, .cancelCheck, .primCall "convert_to"]⟩) :=
  (((as_conversion_dispatch (.Num (.lit "5")) (.Num (.lit "2")) ⟨false⟩ ⟨[], []⟩).2
      (.num (.lit "2")) ⟨[], [.cancelCheck, .cancelCheck]⟩ rfl).2
      (.num (.lit "5")) ⟨[], [.cancelCheck, .cancelCheck, .cancelCheck]⟩ (.lit "5")
      rfl rfl).1 (.lit "2") rfl

/-- Claim C2: when the cancellation capability reports "requested" before a
node is visited, evaluation of that node — of every node kind, so of all
descendants alike — returns the interrupt outcome unchanged, having performed
exactly the one cancellation poll and computed nothing else. -/
theorem interrupt_precedence (e : Expr) (opts : ParseOptions) (st : EvalState) :
    evaluate e opts true st = (.error .interrupt, pushEvent st .cancelCheck) := by
  cases e <;> rfl

/-- Counterexample to claim C3 as stated: Parens with a child that evaluates
to a Function reference is not a type-mismatch error — the non-Numeric value
passes through unchanged (ast.rs line 68 has no expect_num call). -/
theorem parens_passes_function_through_cex :
    (runEval (.Parens (.Ident "sqrt")) ⟨false⟩ false []).1 = .ok (.func "sqrt") := rfl

/-- Amended claim C3: evaluating Parens(x) passes the child's outcome through
completely unchanged with no numeric requirement, while UnaryPlus(x) requires
the child's value to be Numeric and passes it through; a non-Numeric child
value is a type-mismatch error only under UnaryPlus. -/
theorem parens_passthrough_unaryplus_requires_numeric (x : Expr) (opts : ParseOptions)
    (st st' : EvalState) (r : Except EvalError Value)
    (hx : evaluate x opts false (pushEvent st .cancelCheck) = (r, st')) :
    evaluate (.Parens x) opts false st = (r, st')
    ∧ (∀ n, r = .ok (.num n) →
        evaluate (.UnaryPlus x) opts false st = (.ok (.num n), st'))
    ∧ (∀ v, r = .ok v → (∀ n, v ≠ .num n) →
        evaluate (.UnaryPlus x) opts false st = (.error (.msg "expected a number"), st')) := by
  refine ⟨?_, ?_, ?_⟩
  · simp [evaluate, hx]
  · rintro n rfl
    simp [evaluate, hx, Value.expect_num]
  · rintro v rfl hv
    have hvn : v.expect_num = EvalM.throw (.msg "expected a number") := by
      cases v <;> first | rfl | exact absurd rfl (hv _)
    simp [evaluate, hx, hvn]

/-- Witness for the amended C3: a Function-reference child passes through
Parens but is a type-mismatch error under UnaryPlus. -/
theorem parens_passthrough_unaryplus_requires_numeric_witness :
    evaluate (.Parens (.Ident "sqrt")) ⟨false⟩ false ⟨[], []⟩ =
      (.ok (.func "sqrt"), ⟨[], [.cancelCheck, .cancelCheck, .resolveIdent "sqrt"]⟩)
    ∧ evaluate (.UnaryPlus (.Ident "sqrt")) ⟨false⟩ false ⟨[], []⟩ =
      (.error (.msg "expected a number"),
       ⟨[], [.cancelCheck, .cancelCheck, .resolveIdent "sqrt"]⟩) :=
  ⟨(parens_passthrough_unaryplus_requires_numeric (.Ident "sqrt") ⟨false⟩ ⟨[], []⟩
      ⟨[], [.cancelCheck, .cancelCheck, .resolveIdent "sqrt"]⟩ (.ok (.func "sqrt")) rfl).1,
   (parens_passthrough_unaryplus_requires_numeric (.Ident "sqrt") ⟨false⟩ ⟨[], []⟩
      ⟨[], [.cancelCheck, .cancelCheck, .resolveIdent "sqrt"]⟩ (.ok (.func "sqrt")) rfl).2.2
      (.func "sqrt") rfl (fun _ h => Value.noConfusion h)⟩

/-- Claim C4: when the identifier resolves to a Function reference and the
argument evaluates to a Numeric value, Implicit-apply (Expr::Apply) invokes
the function on the argument, while Forced-multiply (Expr::ApplyMul) of the
same operands is the type-mismatch error — the Function reference on the left
is never treated as callable under Forced-multiply. -/
theorem implicit_apply_vs_forced_multiply (fid : String) (x : Expr) (opts : ParseOptions)
    (st st1 st2 : EvalState) (fname : String) (n : Number)
    (hres : resolve_identifier fid opts false
        (pushEvent (pushEvent st .cancelCheck) .cancelCheck) = (.ok (.func fname), st1))
    (hx : evaluate x opts false st1 = (.ok (.num n), st2)) :
    evaluate (.Apply (.Ident fid) x) opts false st =
      (.ok (.num (.applyFn fname n)), pushEvent st2 (.primCall "apply"))
    ∧ evaluate (.ApplyMul (.Ident fid) x) opts false st =
      (.error (.msg "expected a number"), st2) := by
  constructor <;>
    simp [evaluate, hres, hx, Value.apply, Value.expect_num, apply_fn]

/-- Witness for C4: sqrt applied to the literal 9 under Apply versus the
type-mismatch error under ApplyMul. -/
theorem implicit_apply_vs_forced_multiply_witness :
    evaluate (.Apply (.Ident "sqrt") (.Num (.lit "9"))) ⟨false⟩ false ⟨[], []⟩ =
      (.ok (.num (.applyFn "sqrt" (.lit "9"))),
       ⟨[], [.cancelCheck, .cancelCheck, .resolveIdent "sqrt", .cancelCheck, .primCall "apply"]⟩)
    ∧ evaluate (.ApplyMul (.Ident "sqrt") (.Num (.lit "9"))) ⟨false⟩ false ⟨[], []⟩ =
      (.error (.msg "expected a number"),
       ⟨[], [.cancelCheck, .cancelCheck, .resolveIdent "sqrt", .cancelCheck]⟩) :=
  implicit_apply_vs_forced_multiply "sqrt" (.Num (.lit "9")) ⟨false⟩ ⟨[], []⟩
    ⟨[], [.cancelCheck, .cancelCheck, .resolveIdent "sqrt"]⟩
    ⟨[], [.cancelCheck, .cancelCheck, .resolveIdent "sqrt", .cancelCheck]⟩
    "sqrt" (.lit "9") rfl rfl

/-- Counterexample to claim C5 as stated: evaluating As(Identifier("ln"),
Literal(1)) does not produce the "Unable to convert value to a function"
error; the right operand is Numeric, so dispatch takes the unit-conversion
arm and the failure is the left operand's require-Numeric type mismatch. -/
theorem as_ln_literal_error_message_cex :
    (runEval (.As (.Ident "ln") (.Num (.lit "1"))) ⟨false⟩ false []).1 ≠
      .error (.msg "Unable to convert value to a function")
    ∧ (runEval (.As (.Ident "ln") (.Num (.lit "1"))) ⟨false⟩ false []).1 =
      .error (.msg "expected a number") := by
  constructor
  · decide
  · rfl

/-- Amended claim C5: evaluating As(Identifier("ln"), Literal(1)) produces the
left operand's require-Numeric type-mismatch error (the left resolves to a
Function reference where a number is required); the "cannot convert value to
a function" error arises when the right operand is a Function reference, as
in As(Literal(1), Identifier("ln")). -/
theorem as_ln_literal_amended :
    (runEval (.As (.Ident "ln") (.Num (.lit "1"))) ⟨false⟩ false []).1 =
      .error (.msg "expected a number")
    ∧ (runEval (.As (.Num (.lit "1")) (.Ident "ln")) ⟨false⟩ false []).1 =
      .error (.msg "Unable to convert value to a function") := ⟨rfl, rfl⟩

/-- Claim C6: every identifier that compatibility mode resolves without
falling back to the scope (exp, sqrt, ln, log2, log10, tan, asin, "approx.",
"approximately") resolves to a Function reference, and to the very same
Function reference that default mode returns for that name, with the same
(read-only, lookup-free) effect on the state. -/
theorem compat_table_matches_default_table (st : EvalState) (int : Bool) :
    (resolve_identifier "exp" ⟨true⟩ int st =
        (.ok (.func "exp"), pushEvent st (.resolveIdent "exp"))
      ∧ resolve_identifier "exp" ⟨false⟩ int st =
        (.ok (.func "exp"), pushEvent st (.resolveIdent "exp")))
    ∧ (resolve_identifier "sqrt" ⟨true⟩ int st =
        (.ok (.func "sqrt"), pushEvent st (.resolveIdent "sqrt"))
      ∧ resolve_identifier "sqrt" ⟨false⟩ int st =
        (.ok (.func "sqrt"), pushEvent st (.resolveIdent "sqrt")))
    ∧ (resolve_identifier "ln" ⟨true⟩ int st =
        (.ok (.func "ln"), pushEvent st (.resolveIdent "ln"))
      ∧ resolve_identifier "ln" ⟨false⟩ int st =
        (.ok (.func "ln"), pushEvent st (.resolveIdent "ln")))
    ∧ (resolve_identifier "log2" ⟨true⟩ int st =
        (.ok (.func "log2"), pushEvent st (.resolveIdent "log2"))
      ∧ resolve_identifier "log2" ⟨false⟩ int st =
        (.ok (.func "log2"), pushEvent st (.resolveIdent "log2")))
    ∧ (resolve_identifier "log10" ⟨true⟩ int st =
        (.ok (.func "log10"), pushEvent st (.resolveIdent "log10"))
      ∧ resolve_identifier "log10" ⟨false⟩ int st =
        (.ok (.func "log10"), pushEvent st (.resolveIdent "log10")))
    ∧ (resolve_identifier "tan" ⟨true⟩ int st =
        (.ok (.func "tan"), pushEvent st (.resolveIdent "tan"))
      ∧ resolve_identifier "tan" ⟨false⟩ int st =
        (.ok (.func "tan"), pushEvent st (.resolveIdent "tan")))
    ∧ (resolve_identifier "asin" ⟨true⟩ int st =
        (.ok (.func "asin"), pushEvent st (.resolveIdent "asin"))
      ∧ resolve_identifier "asin" ⟨false⟩ int st =
        (.ok (.func "asin"), pushEvent st (.resolveIdent "asin")))
    ∧ (resolve_identifier "approx." ⟨true⟩ int st =
        (.ok (.func "approximately"), pushEvent st (.resolveIdent "approx."))
      ∧ resolve_identifier "approx." ⟨false⟩ int st =
        (.ok (.func "approximately"), pushEvent st (.resolveIdent "approx.")))
    ∧ (resolve_identifier "approximately" ⟨true⟩ int st =
        (.ok (.func "approximately"), pushEvent st (.resolveIdent "approximately"))
      ∧ resolve_identifier "approximately" ⟨false⟩ int st =
        (.ok (.func "approximately"), pushEvent st (.resolveIdent "approximately"))) :=
  ⟨⟨rfl, rfl⟩, ⟨rfl, rfl⟩, ⟨rfl, rfl⟩, ⟨rfl, rfl⟩, ⟨rfl, rfl⟩, ⟨rfl, rfl⟩, ⟨rfl, rfl⟩,
   ⟨rfl, rfl⟩, ⟨rfl, rfl⟩⟩

/-- Claim C7: UnaryDiv on a Numeric child computes 1 divided by the child via
the external division primitive, and any division failure — in UnaryDiv and in
binary Div alike — surfaces as the primitive's domain-error message, never as
the interrupt outcome. -/
theorem division_failure_is_domain_error (x : Expr) (opts : ParseOptions)
    (st st1 : EvalState) (n : Number)
    (hx : evaluate x opts false (pushEvent st .cancelCheck) = (.ok (.num n), st1)) :
    (evaluate (.UnaryDiv x) opts false st =
      (match Number.div_result (.ofInt 1) n with
       | .ok r => (.ok (.num r), pushEvent st1 (.primCall "div"))
       | .error e => (.error (.msg e), pushEvent st1 (.primCall "div"))))
    ∧ (evaluate (.UnaryDiv x) opts false st).1 ≠ .error .interrupt
    ∧ (∀ (a b : Expr) (na nb : Number) (st1' st2' : EvalState),
        evaluate a opts false (pushEvent st .cancelCheck) = (.ok (.num na), st1') →
        evaluate b opts false st1' = (.ok (.num nb), st2') →
        evaluate (.Div a b) opts false st =
          (match Number.div_result na nb with
           | .ok r => (.ok (.num r), pushEvent st2' (.primCall "div"))
           | .error e => (.error (.msg e), pushEvent st2' (.primCall "div")))
        ∧ (evaluate (.Div a b) opts false st).1 ≠ .error .interrupt) := by
  have h1 : evaluate (.UnaryDiv x) opts false st =
      (match Number.div_result (.ofInt 1) n with
       | .ok r => (.ok (.num r), pushEvent st1 (.primCall "div"))
       | .error e => (.error (.msg e), pushEvent st1 (.primCall "div"))) := by
    cases hdiv : Number.div_result (.ofInt 1) n <;>
      simp [evaluate, hx, Value.expect_num, prim_div, hdiv]
  refine ⟨h1, ?_, ?_⟩
  · rw [h1]; cases Number.div_result (.ofInt 1) n <;> simp
  · intro a b na nb st1' st2' ha hb
    have h2 : evaluate (.Div a b) opts false st =
        (match Number.div_result na nb with
         | .ok r => (.ok (.num r), pushEvent st2' (.primCall "div"))
         | .error e => (.error (.msg e), pushEvent st2' (.primCall "div"))) := by
      cases hdiv : Number.div_result na nb <;>
        simp [evaluate, ha, hb, Value.expect_num, prim_div, hdiv]
    exact ⟨h2, by rw [h2]; cases Number.div_result na nb <;> simp⟩

/-- Witness for C7: the reciprocal of the literal 0 fails with the division
domain error and is not an interrupt. -/
theorem division_failure_is_domain_error_witness :
    evaluate (.UnaryDiv (.Num (.lit "0"))) ⟨false⟩ false ⟨[], []⟩ =
      (.error (.msg "division by zero"), ⟨[], [.cancelCheck, .cancelCheck, .primCall "div"]⟩)
    ∧ (evaluate (.UnaryDiv (.Num (.lit "0"))) ⟨false⟩ false ⟨[], []⟩).1 ≠ .error .interrupt :=
  ⟨(division_failure_is_domain_error (.Num (.lit "0")) ⟨false⟩ ⟨[], []⟩
      ⟨[], [.cancelCheck, .cancelCheck]⟩ (.lit "0") rfl).1,
   (division_failure_is_domain_error (.Num (.lit "0")) ⟨false⟩ ⟨[], []⟩
      ⟨[], [.cancelCheck, .cancelCheck]⟩ (.lit "0") rfl).2.1⟩

/-- Counterexample to claim C8 as stated: resolving "pi" in default mode
performs cancellation checks of its own (the bootstrap evaluation of the
constant polls cancellation at each node of its fixed expression), beyond the
single check the evaluator makes before visiting the identifier node. -/
theorem resolve_pi_performs_cancellation_checks_cex :
    Event.cancelCheck ∈ (resolve_identifier "pi" ⟨false⟩ false ⟨[], []⟩).2.events := by
  decide

/-- Amended claim C8: in both configuration modes resolve_identifier leaves
the scope unchanged for every identifier, and it performs no cancellation
check of its own except for the constants "pi" and "e" in default mode, whose
bootstrap evaluation recursively invokes the evaluator and therefore polls
cancellation per node of the constant's expression. -/
theorem resolve_identifier_frame_effects (ident : String) (opts : ParseOptions)
    (int : Bool) (sc : Scope) (evs : List Event) :
    ((resolve_identifier ident opts int ⟨sc, evs⟩).2.scope = sc)
    ∧ ((opts.gnu_compatible = true ∨ (ident ≠ "pi" ∧ ident ≠ "e")) →
        Event.cancelCheck ∉ (resolve_identifier ident opts int ⟨sc, []⟩).2.events) := by
  constructor
  · unfold resolve_identifier
    simp only [run_bind, run_logEvent]
    split
    · split <;> simp [scope_get, pushEvent]
    · split <;>
        simp [scope_get, pushEvent, eval_const_scope, liftExcept, Base.from_plain_base]
  · intro h
    unfold resolve_identifier
    simp only [run_bind, run_logEvent]
    split
    · split <;> simp [scope_get, pushEvent]
    · rename_i hgnu
      rcases h with h | ⟨hpi, he⟩
      · exact absurd h hgnu
      · split <;>
          first
          | (exact absurd rfl hpi)
          | (exact absurd rfl he)
          | simp [scope_get, pushEvent, liftExcept, Base.from_plain_base]

/-- Witness for the amended C8: resolving "sqrt" in default mode performs no
cancellation check. -/
theorem resolve_identifier_frame_effects_witness :
    Event.cancelCheck ∉ (resolve_identifier "sqrt" ⟨false⟩ false ⟨[], []⟩).2.events :=
  (resolve_identifier_frame_effects "sqrt" ⟨false⟩ false [] []).2
    (Or.inr ⟨by decide, by decide⟩)

/-- Claim C9: for each binary arithmetic node Add, Sub, Mul, Div, Pow, a left
child evaluating to a non-Numeric value yields the type-mismatch error with
the final state exactly as the left child left it, for every right child —
so no cancellation check, identifier resolution, scope lookup or primitive
invocation arising from the right child occurs on that error path. -/
theorem binop_nonnumeric_left_skips_right (a : Expr) (v : Value) (opts : ParseOptions)
    (st st1 : EvalState)
    (ha : evaluate a opts false (pushEvent st .cancelCheck) = (.ok v, st1))
    (hv : ∀ n, v ≠ .num n) :
    ∀ b : Expr,
      evaluate (.Add a b) opts false st = (.error (.msg "expected a number"), st1)
      ∧ evaluate (.Sub a b) opts false st = (.error (.msg "expected a number"), st1)
      ∧ evaluate (.Mul a b) opts false st = (.error (.msg "expected a number"), st1)
      ∧ evaluate (.Div a b) opts false st = (.error (.msg "expected a number"), st1)
      ∧ evaluate (.Pow a b) opts false st = (.error (.msg "expected a number"), st1) := by
  intro b
  have hvn : v.expect_num = EvalM.throw (.msg "expected a number") := by
    cases v <;> first | rfl | exact absurd rfl (hv _)
  refine ⟨?_, ?_, ?_, ?_, ?_⟩ <;> simp [evaluate, ha, hvn]

/-- Witness for C9: adding anything to the precision marker "dp" on the left
fails with the type-mismatch error and the trace stops at the left child. -/
theorem binop_nonnumeric_left_skips_right_witness :
    evaluate (.Add (.Ident "dp") (.Num (.lit "1"))) ⟨false⟩ false ⟨[], []⟩ =
      (.error (.msg "expected a number"),
       ⟨[], [.cancelCheck, .cancelCheck, .resolveIdent "dp"]⟩) :=
  (binop_nonnumeric_left_skips_right (.Ident "dp") .dp ⟨false⟩ ⟨[], []⟩
    ⟨[], [.cancelCheck, .cancelCheck, .resolveIdent "dp"]⟩ rfl
    (fun _ h => Value.noConfusion h) (.Num (.lit "1"))).1

/-- Claim C10: get_config_file_location is a pure function of the environment
and returns the config directory joined with "config.toml", where the config
directory is FEND_CONFIG_DIR when set, otherwise XDG_CONFIG_HOME/fend when
set, otherwise HOME/.config/fend; it returns HomeDirError exactly when both
variables are unset and no home directory can be determined. -/
theorem get_config_file_location_spec (env : Env) :
    (get_config_file_location env =
      match env.fend_config_dir with
      | some d => .ok [d, "config.toml"]
      | none =>
        match env.xdg_config_home with
        | some x => .ok [x, "fend", "config.toml"]
        | none =>
          match env.home_dir with
          | some h => .ok [h, ".config", "fend", "config.toml"]
          | none => .error .homeDirError)
    ∧ (get_config_file_location env = .error .homeDirError ↔
        env.fend_config_dir = none ∧ env.xdg_config_home = none ∧ env.home_dir = none) := by
  obtain ⟨f, x, h⟩ := env
  cases f <;> cases x <;> cases h <;>
    simp [get_config_file_location, get_config_dir, get_home_dir, path_push]

end Fend
